import Mathlib

/-!
Verification of the MCQGeneratorAnki core (`main.py`) against its
natural-language specification.

The development shallowly embeds the two functions with real logic:

* `generate_sentence_for_word` — the resilient generation client
  (hosted/OpenAI retry loop, Ollama single-shot path);
* `generate_mcq_for_cards` — the batch runner that assembles MCQ records,
  together with its helpers `get_all_deck_words` and the per-item
  distractor sampling / option shuffling.

I/O is made explicit: HTTP responses become values of `HostedResp` /
`OllamaNet` supplied by an environment, Python's `random` becomes seed
functions `Nat → Nat` threaded through sampling, and `showInfo` /
`return None` / `raise` become the tagged outcome `GenOutcome`.
-/

namespace MCQGen

/-- The two wait constants of the hosted retry loop in `main.py`:
`wait_time = 30` for HTTP 429 (`non_blocking_wait(wait_time)`). -/
def rateWaitSeconds : Nat := 30

/-- `time.sleep(3)` between transport-error retries in `main.py`. -/
def transportSleepSeconds : Nat := 3

/-- The whitespace characters Python's `str.strip()` removes (ASCII). -/
def pyWhitespace (c : Char) : Bool :=
  c = ' ' || c = '\t' || c = '\n' || c = '\r' || c = '\x0b' || c = '\x0c'

/-- Python's `str.strip()`: drop leading and trailing whitespace.  (Lean's
built-in `String.trim` is observationally the same on the inputs used
here; this explicit definition keeps the model kernel-computable.) -/
def pyStrip (s : String) : String :=
  ⟨((s.data.dropWhile pyWhitespace).reverse.dropWhile pyWhitespace).reverse⟩

/-- Prompt templates (`PROMPT_TEMPLATE`), modelled as a piece list:
literal text, the `{word}` placeholder, the `{level}` placeholder, and an
unknown placeholder (which makes Python's `str.format` raise `KeyError`). -/
inductive TPiece where
  | lit (s : String)
  | wordHole
  | levelHole
  | badHole
deriving DecidableEq

/-- `PROMPT_TEMPLATE.format(word=word, level=level)`: substitute the
placeholders; an unknown placeholder fails (caught in `main.py` and
reported as an invalid template). -/
def renderTemplate (t : List TPiece) (word level : String) : Except Unit String :=
  t.foldr
    (fun p acc =>
      match acc with
      | .error e => .error e
      | .ok s =>
        match p with
        | .lit x => .ok (x ++ s)
        | .wordHole => .ok (word ++ s)
        | .levelHole => .ok (level ++ s)
        | .badHole => .error ())
    (.ok "")

/-- The configuration values `main.py` reads at module load
(`LLM_PROVIDER`, `OPENAI_API_KEY`, `OPENAI_MODEL`, `OLLAMA_MODEL`,
`PROMPT_TEMPLATE`).  Endpoint URLs and the temperature are carried through
verbatim into every request and never branch the logic, so they are not
modelled. -/
structure Config where
  provider : String
  apiKey : String
  aiModel : String
  ollamaModel : String
  promptTemplate : List TPiece

/-- One hosted (OpenAI-path) HTTP exchange, as `main.py` distinguishes
them: status 429; a 2xx response whose body yields
`data["choices"][0]["message"]["content"]`; a
`requests.exceptions.RequestException` (transport failure or non-2xx via
`raise_for_status`); a 2xx response whose body makes the extraction raise. -/
inductive HostedResp where
  | rate429
  | okBody (content : String)
  | transport
  | badBody
deriving DecidableEq

/-- Minimal JSON values for the Ollama response body. -/
inductive Json where
  | null
  | str (s : String)
  | obj (fields : List (String × Json))

/-- The Ollama exchange: either a `RequestException` or a parsed body. -/
inductive OllamaNet where
  | transportErr
  | body (j : Json)

/-- Reasons `generate_sentence_for_word` returns `None` (after a
`showInfo`), so the batch loop skips the item. -/
inductive SkipReason where
  | invalidTemplate
  | ollamaConfigMissing
  | ollamaTransport
  | ollamaProcessing
  | emptyResponse
  | apiKeyMissing
  | modelMissing
  | retriesExhausted
deriving DecidableEq

/-- Reasons `generate_sentence_for_word` raises, propagating to its
caller. -/
inductive RaiseReason where
  | transportFatal
  | processingError
deriving DecidableEq

/-- Observable outcome of one `generate_sentence_for_word` call:
a returned sentence, a `None` return, or an uncaught exception. -/
inductive GenOutcome where
  | success (s : String)
  | skipped (e : SkipReason)
  | raised (e : RaiseReason)
deriving DecidableEq

/-- Trace of one `generate_sentence_for_word` call: the outcome, the
prompt payloads of the outbound requests in order, and the log of wait
durations (30 for each rate-limit wait, 3 for each transport backoff). -/
structure GenRun where
  outcome : GenOutcome
  sent : List String
  waitLog : List Nat
deriving DecidableEq

/-- Cons one request (its prompt payload) and the wait that followed it
onto a call trace. -/
def prependSend (prompt : String) (wait : Nat) (rest : GenRun) : GenRun :=
  ⟨rest.outcome, prompt :: rest.sent, wait :: rest.waitLog⟩

/-- The hosted retry loop of `main.py`

```
retries = 0
while retries <= max_retries:
    res = requests.post(...)
    if res.status_code == 429:
        non_blocking_wait(30); retries += 1; continue
    res.raise_for_status()
    return data["choices"][0]["message"]["content"].strip()
  except RequestException:
    retries += 1
    if retries > max_retries: raise
    time.sleep(3)
  except Exception: raise
return None  -- "Maximum retries exceeded"
```

written with the remaining budget `b = max_retries + 1 - retries` as the
recursion argument (so the loop guard `retries <= max_retries` is `b > 0`,
and the transport check `retries + 1 > max_retries` is `b = 1`).  `idx`
numbers the requests so the environment `resp` can answer per request.
Trace bookkeeping lives in `prependSend`: it records one issued request
and the wait that followed it in front of the remainder's trace. -/
def hostedGo (resp : Nat → HostedResp) (prompt : String) : Nat → Nat → GenRun
  | 0, _ => ⟨.skipped .retriesExhausted, [], []⟩
  | b + 1, idx =>
    match resp idx with
    | .rate429 =>
      prependSend prompt rateWaitSeconds (hostedGo resp prompt b (idx + 1))
    | .okBody c => ⟨.success (pyStrip c), [prompt], []⟩
    | .transport =>
      if b = 0 then ⟨.raised .transportFatal, [prompt], []⟩
      else
        prependSend prompt transportSleepSeconds (hostedGo resp prompt b (idx + 1))
    | .badBody => ⟨.raised .processingError, [prompt], []⟩

/-- Entry point of the hosted loop: `retries = 0`, so the budget is
`max_retries + 1`. -/
def hostedLoop (resp : Nat → HostedResp) (prompt : String) (maxRetries : Nat) : GenRun :=
  hostedGo resp prompt (maxRetries + 1) 0

/-- Ollama content extraction: `data["content"]` at top level.
Python: `content = data["content"]`, then `(content or "").strip()`;
a string is taken as-is, `null` is falsy so becomes `""`, any other
value makes `.strip()` raise (caught, reported as a processing error),
and an absent key leaves `content = ""`. -/
def topContent (fs : List (String × Json)) : Except Unit String :=
  match fs.lookup "content" with
  | some (.str s) => .ok s
  | some .null => .ok ""
  | some _ => .error ()
  | none => .ok ""

/-- Ollama content extraction from the parsed body, mirroring

```
content = ""
if isinstance(data, dict):
    if "message" in data and isinstance(data["message"], dict):
        content = data["message"].get("content", "")
    elif "content" in data:
        content = data["content"]
```

The returned string is the pre-`strip` content. -/
def ollamaContent (j : Json) : Except Unit String :=
  match j with
  | .obj fs =>
    match fs.lookup "message" with
    | some (.obj mfs) =>
      match mfs.lookup "content" with
      | some (.str s) => .ok s
      | some .null => .ok ""
      | some _ => .error ()
      | none => .ok ""
    | some _ => topContent fs
    | none => topContent fs
  | _ => .ok ""

/-- Environment of one `generate_sentence_for_word` call: the drawn CEFR
level (`random.choice(['A1',...,'C2'])`) and the backend's behaviour. -/
structure GenEnv where
  level : String
  hostedResp : Nat → HostedResp
  ollamaResp : OllamaNet

/-- `generate_sentence_for_word(word, max_retries)` from `main.py`:
render the prompt (invalid template → `None`); on the `"ollama"` provider
issue one request and extract the content (no retry, empty-after-strip →
`None`); otherwise check `API_KEY` and `AI_MODEL` are non-empty (else
`None`, with no request issued) and run the hosted retry loop. -/
def generate_sentence_for_word (cfg : Config) (env : GenEnv) (word : String)
    (maxRetries : Nat) : GenRun :=
  match renderTemplate cfg.promptTemplate word env.level with
  | .error _ => ⟨.skipped .invalidTemplate, [], []⟩
  | .ok prompt =>
    if cfg.provider = "ollama" then
      if cfg.ollamaModel = "" then ⟨.skipped .ollamaConfigMissing, [], []⟩
      else
        match env.ollamaResp with
        | .transportErr => ⟨.skipped .ollamaTransport, [prompt], []⟩
        | .body j =>
          match ollamaContent j with
          | .error _ => ⟨.skipped .ollamaProcessing, [prompt], []⟩
          | .ok content =>
            if pyStrip content = "" then ⟨.skipped .emptyResponse, [prompt], []⟩
            else ⟨.success (pyStrip content), [prompt], []⟩
    else
      if cfg.apiKey = "" then ⟨.skipped .apiKeyMissing, [], []⟩
      else if cfg.aiModel = "" then ⟨.skipped .modelMissing, [], []⟩
      else hostedLoop env.hostedResp prompt maxRetries

/-- `random.sample(l, k)`: draw `k` elements without replacement.  Each
draw takes the element at index `seed step % len` of the remaining list;
drawing from an exhausted list (Python's `ValueError` when `k > len(l)`)
is `none`. -/
def randomSample {α : Type} (seed : Nat → Nat) : Nat → List α → Option (List α)
  | 0, _ => some []
  | k + 1, l =>
    if h : l.length = 0 then none
    else
      match randomSample (fun n => seed (n + 1)) k (l.eraseIdx (seed 0 % l.length)) with
      | none => none
      | some s =>
        some (l.get ⟨seed 0 % l.length, Nat.mod_lt _ (Nat.pos_of_ne_zero h)⟩ :: s)

/-- `random.shuffle(l)`: a shuffle is a full-length sample without
replacement, which always succeeds. -/
def randomShuffle {α : Type} (seed : Nat → Nat) (l : List α) : List α :=
  (randomSample seed l.length l).getD l

/-- `get_all_deck_words(did)` from `main.py`: strip each note's `Word`
field, drop empties, deduplicate (`list(set(words))`; Python's set order
is arbitrary, represented here by `dedup`, which keeps first
occurrences). -/
def get_all_deck_words (store : Nat → List String) (did : Nat) : List String :=
  (((store did).map pyStrip).filter (fun w => w ≠ "")).dedup

/-- One MCQ record as written to a note: `SentenceBlank`, the shuffled
`OptionA..OptionD`, and `Answer`. -/
structure MCQRecord where
  word : String
  sentenceWithBlank : String
  options : List String
  answer : String
deriving DecidableEq

/-- A selected card: its note's raw `Word` field and its deck id. -/
structure Card where
  word : String
  did : Nat
deriving DecidableEq

/-- Per-item randomness and backend behaviour for a batch run, indexed by
the item's position. -/
structure BatchEnv where
  genEnv : Nat → GenEnv
  sseed : Nat → Nat → Nat
  shseed : Nat → Nat → Nat

/-- Terminal state of a batch run: empty input (`if not cids: return`),
the too-few-deck-words early return, an uncaught `random.sample`
`ValueError`, an abort from a raised generation error, or normal
completion. -/
inductive BatchOutcome where
  | noCards
  | insufficientPool
  | crashed
  | aborted
  | completed
deriving DecidableEq

/-- Trace of a batch run: the emitted records in order, the words for
which `generate_sentence_for_word` was invoked, and the terminal state. -/
structure BatchRun where
  records : List MCQRecord
  genCalls : List String
  outcome : BatchOutcome
deriving DecidableEq

/-- The per-item loop body of `generate_mcq_for_cards`:

```
for index, cid in enumerate(cids, start=1):
    word = note['Word'].strip()
    if not word: continue
    others = [w for w in deck_words if w != word]
    distractors = random.sample(others, 3)      # ValueError is uncaught
    try:
        sentence = generate_sentence_for_word(word)
        if sentence is None: continue
    except Exception: ...; return               # abort the batch
    options = [word] + distractors
    random.shuffle(options)
    ...  # write fields, Answer = word
```

`i` is the item's position, selecting its slice of the environment. -/
def batchLoop (cfg : Config) (benv : BatchEnv) (deckWords : List String) :
    List Card → Nat → BatchRun
  | [], _ => ⟨[], [], .completed⟩
  | c :: rest, i =>
    let word := pyStrip c.word
    if word = "" then batchLoop cfg benv deckWords rest (i + 1)
    else
      let others := deckWords.filter (fun w => w ≠ word)
      match randomSample (benv.sseed i) 3 others with
      | none => ⟨[], [], .crashed⟩
      | some ds =>
        let g := generate_sentence_for_word cfg (benv.genEnv i) word 5
        match g.outcome with
        | .raised _ => ⟨[], [word], .aborted⟩
        | .skipped _ =>
          let t := batchLoop cfg benv deckWords rest (i + 1)
          ⟨t.records, word :: t.genCalls, t.outcome⟩
        | .success sentence =>
          let opts := randomShuffle (benv.shseed i) (word :: ds)
          let t := batchLoop cfg benv deckWords rest (i + 1)
          ⟨⟨word, sentence, opts, word⟩ :: t.records, word :: t.genCalls, t.outcome⟩

/-- `generate_mcq_for_cards(cids)` from `main.py`: empty input returns;
the distractor pool is computed once from the first card's deck; fewer
than 4 deck words aborts before any item; otherwise every card (the first
included) is processed in order. -/
def generate_mcq_for_cards (store : Nat → List String) (cfg : Config)
    (benv : BatchEnv) (cards : List Card) : BatchRun :=
  match cards with
  | [] => ⟨[], [], .noCards⟩
  | first :: _ =>
    let deckWords := get_all_deck_words store first.did
    if deckWords.length < 4 then ⟨[], [], .insufficientPool⟩
    else batchLoop cfg benv deckWords cards 0

/-- Modelled from the spec: the hosted retry loop as §4.1/§7 of the spec
describe it, with rate-limit retries and transport-error retries "counted
on a *separate* retry counter", "each independently bounded by
`maxRetries`".  On 429: wait, increment the rate counter, fail with
`RetriesExhausted` past the bound; on a transport error: increment the
transport counter, re-raise as fatal past the bound, otherwise back off
and retry.  Success and bad-body handling are as in the code.  This
definition exists only to be compared with `hostedGo`, which the code
actually implements with one shared counter. -/
def hostedSpecTwoCounters (resp : Nat → HostedResp) (prompt : String)
    (maxRetries : Nat) : Nat → Nat → Nat → GenRun
  | rr, tr, idx =>
    match resp idx with
    | .okBody c => ⟨.success (pyStrip c), [prompt], []⟩
    | .badBody => ⟨.raised .processingError, [prompt], []⟩
    | .rate429 =>
      if h : maxRetries < rr + 1 then ⟨.skipped .retriesExhausted, [prompt], [rateWaitSeconds]⟩
      else
        prependSend prompt rateWaitSeconds
          (hostedSpecTwoCounters resp prompt maxRetries (rr + 1) tr (idx + 1))
    | .transport =>
      if h : maxRetries < tr + 1 then ⟨.raised .transportFatal, [prompt], []⟩
      else
        prependSend prompt transportSleepSeconds
          (hostedSpecTwoCounters resp prompt maxRetries rr (tr + 1) (idx + 1))
termination_by rr tr _ => (maxRetries + 1 - rr) + (maxRetries + 1 - tr)
decreasing_by all_goals (simp_wf; omega)

/-! ### Sampling lemmas -/

/-- A successful `randomSample` draw has exactly the requested length. -/
theorem randomSample_length {α : Type} :
    ∀ (k : Nat) (seed : Nat → Nat) (l out : List α),
      randomSample seed k l = some out → out.length = k := by
  intro k
  induction k with
  | zero =>
    intro seed l out h
    simp only [randomSample, Option.some.injEq] at h
    subst h; rfl
  | succ k ih =>
    intro seed l out h
    rw [randomSample] at h
    split at h
    · exact absurd h (by simp)
    · rename_i hne
      revert h
      split
      · intro h; exact absurd h (by simp)
      · rename_i s hs
        intro h
        simp only [Option.some.injEq] at h
        subst h
        simp [ih _ _ _ hs]

/-- Removing the element at a valid index and re-consing it permutes the
list. -/
theorem get_cons_eraseIdx_perm {α : Type} :
    ∀ (l : List α) (i : Nat) (h : i < l.length),
      (l.get ⟨i, h⟩ :: l.eraseIdx i).Perm l := by
  intro l
  induction l with
  | nil => intro i h; simp at h
  | cons a t ih =>
    intro i h
    cases i with
    | zero => simp [List.eraseIdx]
    | succ j =>
      have hj : j < t.length := by simpa using h
      have hperm := ih j hj
      simp only [List.get, List.eraseIdx]
      exact (List.Perm.swap a (t.get ⟨j, hj⟩) (t.eraseIdx j)).trans (hperm.cons a)

/-- A successful draw is, up to permutation, an initial segment of the
source list: the source permutes to the drawn elements plus a remainder. -/
theorem randomSample_perm {α : Type} :
    ∀ (k : Nat) (seed : Nat → Nat) (l out : List α),
      randomSample seed k l = some out → ∃ t, l.Perm (out ++ t) := by
  intro k
  induction k with
  | zero =>
    intro seed l out h
    simp only [randomSample, Option.some.injEq] at h
    subst h
    exact ⟨l, List.Perm.refl l⟩
  | succ k ih =>
    intro seed l out h
    rw [randomSample] at h
    split at h
    · exact absurd h (by simp)
    · rename_i hne
      revert h
      split
      · intro h; exact absurd h (by simp)
      · rename_i s hs
        intro h
        simp only [Option.some.injEq] at h
        subst h
        obtain ⟨t, ht⟩ := ih _ _ _ hs
        refine ⟨t, ?_⟩
        have hi : seed 0 % l.length < l.length :=
          Nat.mod_lt _ (Nat.pos_of_ne_zero hne)
        exact (get_cons_eraseIdx_perm l _ hi).symm.trans (ht.cons _)

/-- Drawing at most the length of the source always succeeds. -/
theorem randomSample_isSome {α : Type} :
    ∀ (k : Nat) (seed : Nat → Nat) (l : List α), k ≤ l.length →
      ∃ out, randomSample seed k l = some out := by
  intro k
  induction k with
  | zero => intro seed l _; exact ⟨[], rfl⟩
  | succ k ih =>
    intro seed l hk
    have hne : ¬ l.length = 0 := by omega
    have hi : seed 0 % l.length < l.length :=
      Nat.mod_lt _ (Nat.pos_of_ne_zero hne)
    have hlen : (l.eraseIdx (seed 0 % l.length)).length + 1 = l.length :=
      List.length_eraseIdx_add_one hi
    obtain ⟨s, hs⟩ := ih (fun n => seed (n + 1)) (l.eraseIdx (seed 0 % l.length)) (by omega)
    refine ⟨l.get ⟨_, hi⟩ :: s, ?_⟩
    rw [randomSample]
    simp only [hne, dif_neg, not_false_iff]
    rw [hs]

/-- A shuffle permutes its input. -/
theorem randomShuffle_perm {α : Type} (seed : Nat → Nat) (l : List α) :
    (randomShuffle seed l).Perm l := by
  obtain ⟨out, hout⟩ := randomSample_isSome l.length seed l (Nat.le_refl _)
  obtain ⟨t, ht⟩ := randomSample_perm l.length seed l out hout
  have hlen : out.length = l.length := randomSample_length l.length seed l out hout
  have hlt : l.length = out.length + t.length := by
    have := ht.length_eq
    simpa using this
  have htnil : t = [] := by
    have : t.length = 0 := by omega
    exact List.length_eq_zero.mp this
  subst htnil
  rw [randomShuffle, hout]
  simpa using ht.symm

/-! ### Distractor/option well-formedness -/

/-- What `random.sample(others, 3)` guarantees in the batch loop: three
distinct words, each drawn from the deck pool and different from the
target. -/
theorem sampled_distractors_props (deckWords : List String) (word : String)
    (sseed : Nat → Nat) (hnd : deckWords.Nodup) (ds : List String)
    (hds : randomSample sseed 3 (deckWords.filter (fun w => w ≠ word)) = some ds) :
    ds.length = 3 ∧ ds.Nodup ∧ ∀ x ∈ ds, x ∈ deckWords ∧ x ≠ word := by
  have hlen := randomSample_length _ _ _ _ hds
  obtain ⟨t, ht⟩ := randomSample_perm _ _ _ _ hds
  have hfil : (deckWords.filter (fun w => w ≠ word)).Nodup := hnd.filter _
  have hnd2 : (ds ++ t).Nodup := (ht.nodup_iff).mp hfil
  refine ⟨hlen, hnd2.of_append_left, ?_⟩
  intro x hx
  have hxf : x ∈ deckWords.filter (fun w => w ≠ word) :=
    ht.mem_iff.mpr (List.mem_append_left t hx)
  have hm := List.mem_filter.mp hxf
  exact ⟨hm.1, by simpa using hm.2⟩

/-- What `random.shuffle([word] + distractors)` guarantees: four options,
pairwise distinct, containing the target, and drawn only from the target
and the distractors. -/
theorem shuffled_options_props (word : String) (ds : List String)
    (shseed : Nat → Nat) (hlen : ds.length = 3) (hnd : ds.Nodup)
    (hw : ∀ x ∈ ds, x ≠ word) :
    (randomShuffle shseed (word :: ds)).length = 4 ∧
    (randomShuffle shseed (word :: ds)).Nodup ∧
    word ∈ randomShuffle shseed (word :: ds) ∧
    ∀ x ∈ randomShuffle shseed (word :: ds), x = word ∨ x ∈ ds := by
  have hperm := randomShuffle_perm shseed (word :: ds)
  have hcons : (word :: ds).Nodup :=
    List.nodup_cons.mpr ⟨fun hmem => (hw word hmem) rfl, hnd⟩
  refine ⟨?_, ?_, ?_, ?_⟩
  · have := hperm.length_eq
    simp [hlen] at this
    simpa using this
  · exact hperm.nodup_iff.mpr hcons
  · exact hperm.mem_iff.mpr (List.mem_cons_self word ds)
  · intro x hx
    have := hperm.mem_iff.mp hx
    simpa using this

/-- Every record the batch loop emits is well-formed: exactly four
pairwise-distinct options, the target among them, the answer equal to the
target, and every option either the target or a deck word. -/
theorem batchLoop_records_wf (cfg : Config) (benv : BatchEnv)
    (deckWords : List String) (hnd : deckWords.Nodup) :
    ∀ (cards : List Card) (i : Nat) (rec : MCQRecord),
      rec ∈ (batchLoop cfg benv deckWords cards i).records →
      rec.options.length = 4 ∧ rec.options.Nodup ∧ rec.word ∈ rec.options ∧
      rec.answer = rec.word ∧
      ∀ x ∈ rec.options, x = rec.word ∨ x ∈ deckWords := by
  intro cards
  induction cards with
  | nil =>
    intro i rec h
    simp [batchLoop] at h
  | cons c rest ih =>
    intro i rec h
    simp only [batchLoop] at h
    split at h
    · exact ih _ _ h
    · rename_i hword
      revert h
      split
      · intro h; simp at h
      · rename_i ds hds
        split
        · intro h; simp at h
        · intro h
          simp only [] at h
          exact ih _ _ h
        · rename_i g sentence hout
          intro h
          simp only [List.mem_cons] at h
          rcases h with hrec | hrec
          · subst hrec
            obtain ⟨hl3, hnd3, hprop⟩ :=
              sampled_distractors_props deckWords ((pyStrip c.word)) (benv.sseed i) hnd ds hds
            obtain ⟨h4, hopts, hmem, hsub⟩ :=
              shuffled_options_props ((pyStrip c.word)) ds (benv.shseed i) hl3 hnd3
                (fun x hx => (hprop x hx).2)
            refine ⟨h4, hopts, hmem, rfl, ?_⟩
            intro x hx
            rcases hsub x hx with hxw | hxd
            · exact Or.inl hxw
            · exact Or.inr (hprop x hxd).1
          · exact ih _ _ hrec

/-- In a deduplicated list, removing the occurrences of one word loses at
most one element. -/
theorem filter_ne_length_of_nodup {l : List String} (hnd : l.Nodup) (w : String) :
    l.length ≤ (l.filter (fun x => x ≠ w)).length + 1 := by
  by_cases hmem : w ∈ l
  · have hperm : l.Perm (w :: l.erase w) := List.perm_cons_erase hmem
    have hf : (l.filter (fun x => x ≠ w)).length =
        ((w :: l.erase w).filter (fun x => x ≠ w)).length :=
      (hperm.filter _).length_eq
    have hhead : (w :: l.erase w).filter (fun x => x ≠ w) =
        (l.erase w).filter (fun x => x ≠ w) := by simp
    have herased : (l.erase w).filter (fun x => x ≠ w) = l.erase w := by
      apply List.filter_eq_self.mpr
      intro a ha
      have hne := ((hnd.mem_erase_iff).mp ha).1
      simpa using hne
    have hlenerase : (l.erase w).length = l.length - 1 :=
      List.length_erase_of_mem hmem
    have hpos : 0 < l.length := List.length_pos.mpr (List.ne_nil_of_mem hmem)
    rw [hf, hhead, herased, hlenerase]
    omega
  · have hall : l.filter (fun x => x ≠ w) = l := by
      apply List.filter_eq_self.mpr
      intro a ha
      simp only [ne_eq, decide_eq_true_eq]
      intro hcontra
      exact hmem (hcontra ▸ ha)
    rw [hall]
    omega

/-! ### Concrete fixtures used by witnesses -/

/-- The all-zero seed. -/
def zseed : Nat → Nat := fun _ => 0

/-- An Ollama configuration whose template is just the word. -/
def cfgOllama : Config := ⟨"ollama", "", "", "gemma", [TPiece.wordHole]⟩

/-- A hosted configuration with key and model set. -/
def cfgHosted : Config := ⟨"openai", "k", "gpt", "", [TPiece.wordHole]⟩

/-- An Ollama body `{"message": {"content": "s"}}`. -/
def ollamaOkBody : Json := .obj [("message", .obj [("content", .str "s")])]

/-- An environment whose Ollama backend answers `{"message": {"content": "s"}}`. -/
def envOllama : GenEnv := ⟨"A1", fun _ => .rate429, .body ollamaOkBody⟩

/-- Batch environment: every item sees `envOllama` and zero seeds. -/
def benvOllama : BatchEnv := ⟨fun _ => envOllama, fun _ => zseed, fun _ => zseed⟩

/-- A store whose every deck holds the four words `a b c d`. -/
def store4 : Nat → List String := fun _ => ["a", "b", "c", "d"]

/-- A store whose every deck holds only three words. -/
def store3 : Nat → List String := fun _ => ["a", "b", "c"]

/-! ### Claims -/

/-- C1: every MCQ record assembled by `generate_mcq_for_cards` (which only
assembles one when the word is non-empty and the deduplicated pool is
large enough) carries exactly 4 pairwise-distinct options, the target word
among them, and an answer equal to the target word. -/
theorem mcq_record_options_wf (store : Nat → List String) (cfg : Config)
    (benv : BatchEnv) (cards : List Card) (rec : MCQRecord)
    (hrec : rec ∈ (generate_mcq_for_cards store cfg benv cards).records) :
    rec.options.length = 4 ∧ rec.options.Nodup ∧ rec.word ∈ rec.options ∧
    rec.answer = rec.word := by
  match cards with
  | [] => simp [generate_mcq_for_cards] at hrec
  | first :: rest =>
    simp only [generate_mcq_for_cards] at hrec
    split at hrec
    · simp at hrec
    · have hnd : (get_all_deck_words store first.did).Nodup := List.nodup_dedup _
      obtain ⟨h1, h2, h3, h4, _⟩ :=
        batchLoop_records_wf cfg benv _ hnd _ _ rec hrec
      exact ⟨h1, h2, h3, h4⟩

/-- Witness for C1: a concrete 4-word deck and one card produce the record
`⟨"a", "s", ["a","b","c","d"], "a"⟩`, and the theorem applies to it. -/
theorem mcq_record_options_wf_witness :
    (⟨"a", "s", ["a", "b", "c", "d"], "a"⟩ : MCQRecord).options.length = 4 ∧
    (⟨"a", "s", ["a", "b", "c", "d"], "a"⟩ : MCQRecord).options.Nodup ∧
    (⟨"a", "s", ["a", "b", "c", "d"], "a"⟩ : MCQRecord).word ∈
      (⟨"a", "s", ["a", "b", "c", "d"], "a"⟩ : MCQRecord).options ∧
    (⟨"a", "s", ["a", "b", "c", "d"], "a"⟩ : MCQRecord).answer =
      (⟨"a", "s", ["a", "b", "c", "d"], "a"⟩ : MCQRecord).word :=
  mcq_record_options_wf store4 cfgOllama benvOllama [⟨"a", 0⟩] _ (by decide)

/-- C2: if any selected item's candidate pool (the deck pool minus that
item's word) has fewer than 3 elements, the whole batch aborts at the
too-few-deck-words guard: no record is emitted for that item or any other
item. -/
theorem insufficient_pool_aborts (store : Nat → List String) (cfg : Config)
    (benv : BatchEnv) (first : Card) (rest : List Card)
    (h : ∃ c ∈ first :: rest,
      ((get_all_deck_words store first.did).filter
        (fun w => w ≠ (pyStrip c.word))).length < 3) :
    (generate_mcq_for_cards store cfg benv (first :: rest)).records = [] ∧
    (generate_mcq_for_cards store cfg benv (first :: rest)).outcome =
      .insufficientPool := by
  obtain ⟨c, _, hlt⟩ := h
  have hnd : (get_all_deck_words store first.did).Nodup := List.nodup_dedup _
  have hge := filter_ne_length_of_nodup hnd ((pyStrip c.word))
  have hlen : (get_all_deck_words store first.did).length < 4 := by omega
  simp only [generate_mcq_for_cards]
  rw [if_pos hlen]
  exact ⟨rfl, rfl⟩

/-- Witness for C2: with a 3-word deck, the card for `"a"` has only 2
candidates, and the run aborts with no records. -/
theorem insufficient_pool_aborts_witness :
    (generate_mcq_for_cards store3 cfgOllama benvOllama [⟨"a", 0⟩]).records = [] ∧
    (generate_mcq_for_cards store3 cfgOllama benvOllama [⟨"a", 0⟩]).outcome =
      .insufficientPool :=
  insufficient_pool_aborts store3 cfgOllama benvOllama ⟨"a", 0⟩ [] (by decide)

/-- One 429 step of the hosted loop: wait 30s, retry. -/
theorem hostedGo_429_step (resp : Nat → HostedResp) (prompt : String)
    (b idx : Nat) (h : resp idx = .rate429) :
    hostedGo resp prompt (b + 1) idx =
      prependSend prompt rateWaitSeconds (hostedGo resp prompt b (idx + 1)) := by
  rw [hostedGo]
  simp only [h]

/-- One success step of the hosted loop: return the stripped content. -/
theorem hostedGo_ok_step (resp : Nat → HostedResp) (prompt : String)
    (b idx : Nat) (c : String) (h : resp idx = .okBody c) :
    hostedGo resp prompt (b + 1) idx = ⟨.success (pyStrip c), [prompt], []⟩ := by
  rw [hostedGo]
  simp only [h]

/-- Under an always-429 backend the hosted loop spends its whole budget:
one request and one 30-second wait per budget unit, then gives up. -/
theorem hostedGo_all429 (resp : Nat → HostedResp) (prompt : String)
    (hall : ∀ n, resp n = .rate429) :
    ∀ b idx, hostedGo resp prompt b idx =
      ⟨.skipped .retriesExhausted, List.replicate b prompt,
        List.replicate b rateWaitSeconds⟩ := by
  intro b
  induction b with
  | zero => intro idx; rfl
  | succ b ih =>
    intro idx
    rw [hostedGo_429_step resp prompt b idx (hall idx), ih (idx + 1)]
    simp [prependSend, List.replicate_succ]

/-- C3: with a valid hosted configuration and a backend that answers 429
to every request, `generate_sentence_for_word` issues exactly
`maxRetries + 1` requests, waits 30 seconds after each, and fails with
retries-exhausted (returning `None`). -/
theorem always_429_retries_exhausted (cfg : Config) (env : GenEnv)
    (word prompt : String) (m : Nat)
    (hprov : cfg.provider ≠ "ollama") (hkey : cfg.apiKey ≠ "")
    (hmodel : cfg.aiModel ≠ "")
    (hrender : renderTemplate cfg.promptTemplate word env.level = .ok prompt)
    (hall : ∀ n, env.hostedResp n = .rate429) :
    (generate_sentence_for_word cfg env word m).outcome =
        .skipped .retriesExhausted ∧
    (generate_sentence_for_word cfg env word m).sent.length = m + 1 ∧
    (generate_sentence_for_word cfg env word m).waitLog =
      List.replicate (m + 1) rateWaitSeconds := by
  have hgen : generate_sentence_for_word cfg env word m =
      ⟨.skipped .retriesExhausted, List.replicate (m + 1) prompt,
        List.replicate (m + 1) rateWaitSeconds⟩ := by
    simp only [generate_sentence_for_word, hrender]
    rw [if_neg hprov, if_neg hkey, if_neg hmodel]
    exact hostedGo_all429 env.hostedResp prompt hall (m + 1) 0
  rw [hgen]
  exact ⟨rfl, by simp, rfl⟩

/-- Witness for C3 at `maxRetries = 2` with a concrete configuration. -/
theorem always_429_retries_exhausted_witness :
    (generate_sentence_for_word cfgHosted ⟨"A1", fun _ => .rate429, .transportErr⟩
        "w" 2).outcome = .skipped .retriesExhausted ∧
    (generate_sentence_for_word cfgHosted ⟨"A1", fun _ => .rate429, .transportErr⟩
        "w" 2).sent.length = 2 + 1 ∧
    (generate_sentence_for_word cfgHosted ⟨"A1", fun _ => .rate429, .transportErr⟩
        "w" 2).waitLog = List.replicate (2 + 1) rateWaitSeconds :=
  always_429_retries_exhausted cfgHosted ⟨"A1", fun _ => .rate429, .transportErr⟩
    "w" "w" 2 (by decide) (by decide) (by decide) rfl (fun _ => rfl)

/-- C4: if the backend answers 429 to the first two requests and succeeds
on the third, and `maxRetries ≥ 2`, the call returns the stripped success
content after exactly two 30-second rate-limit waits and three outbound
requests, each carrying the same rendered prompt. -/
theorem two_429_then_success (cfg : Config) (env : GenEnv)
    (word prompt c : String) (m : Nat)
    (hprov : cfg.provider ≠ "ollama") (hkey : cfg.apiKey ≠ "")
    (hmodel : cfg.aiModel ≠ "")
    (hrender : renderTemplate cfg.promptTemplate word env.level = .ok prompt)
    (h0 : env.hostedResp 0 = .rate429) (h1 : env.hostedResp 1 = .rate429)
    (h2 : env.hostedResp 2 = .okBody c) (hm : 2 ≤ m) :
    generate_sentence_for_word cfg env word m =
      ⟨.success (pyStrip c), [prompt, prompt, prompt],
        [rateWaitSeconds, rateWaitSeconds]⟩ := by
  obtain ⟨k, rfl⟩ : ∃ k, m = k + 2 := ⟨m - 2, by omega⟩
  simp only [generate_sentence_for_word, hrender]
  rw [if_neg hprov, if_neg hkey, if_neg hmodel]
  show hostedGo env.hostedResp prompt (k + 2 + 1) 0 = _
  rw [hostedGo_429_step env.hostedResp prompt (k + 2) 0 h0]
  have e1 : k + 2 = (k + 1) + 1 := by omega
  rw [e1, hostedGo_429_step env.hostedResp prompt (k + 1) 1 h1,
    hostedGo_ok_step env.hostedResp prompt k 2 c h2]
  simp [prependSend]

/-- Witness for C4 at `maxRetries = 2`, success content `" s "`. -/
theorem two_429_then_success_witness :
    generate_sentence_for_word cfgHosted
        ⟨"A1", fun n => if n < 2 then .rate429 else .okBody " s ", .transportErr⟩
        "w" 2 =
      ⟨.success (pyStrip " s "), ["w", "w", "w"],
        [rateWaitSeconds, rateWaitSeconds]⟩ :=
  two_429_then_success cfgHosted
    ⟨"A1", fun n => if n < 2 then .rate429 else .okBody " s ", .transportErr⟩
    "w" "w" " s " 2 (by decide) (by decide) (by decide) rfl rfl rfl rfl
    (by omega)

/-- C7: under the local-inference (Ollama) provider, the generated text is
extracted from either response shape — `{"message": {"content": s}}`
yields `s` and `{"content": t}` yields `t` (stripped) — while a body with
neither field, such as `{}`, fails with an empty-response error. -/
theorem ollama_response_shapes (cfg : Config)
    (word lvl prompt s t : String) (hr : Nat → HostedResp) (m : Nat)
    (hprov : cfg.provider = "ollama") (hmodel : cfg.ollamaModel ≠ "")
    (hrender : renderTemplate cfg.promptTemplate word lvl = .ok prompt)
    (hs : pyStrip s ≠ "") (ht : pyStrip t ≠ "") :
    (generate_sentence_for_word cfg
        ⟨lvl, hr, .body (.obj [("message", .obj [("content", .str s)])])⟩
        word m).outcome = .success (pyStrip s) ∧
    (generate_sentence_for_word cfg ⟨lvl, hr, .body (.obj [("content", .str t)])⟩
        word m).outcome = .success (pyStrip t) ∧
    (generate_sentence_for_word cfg ⟨lvl, hr, .body (.obj [])⟩
        word m).outcome = .skipped .emptyResponse := by
  refine ⟨?_, ?_, ?_⟩ <;>
    simp [generate_sentence_for_word, hrender, hprov, hmodel, ollamaContent,
      topContent, List.lookup, hs, ht, show pyStrip "" = "" from rfl]

/-- Witness for C7 with the spec's literal shapes `"X"`, `"Y"`, `{}`. -/
theorem ollama_response_shapes_witness :
    (generate_sentence_for_word cfgOllama
        ⟨"A1", fun _ => .rate429, .body (.obj [("message", .obj [("content", .str "X")])])⟩
        "w" 5).outcome = .success (pyStrip "X") ∧
    (generate_sentence_for_word cfgOllama
        ⟨"A1", fun _ => .rate429, .body (.obj [("content", .str "Y")])⟩
        "w" 5).outcome = .success (pyStrip "Y") ∧
    (generate_sentence_for_word cfgOllama ⟨"A1", fun _ => .rate429, .body (.obj [])⟩
        "w" 5).outcome = .skipped .emptyResponse :=
  ollama_response_shapes cfgOllama "w" "A1" "w" "X" "Y" (fun _ => .rate429) 5
    rfl (by decide) rfl (by decide) (by decide)

/-- C8: a hosted 2xx response whose extracted content strips to `""` is
returned as a *successful* empty string, while the same condition under
the Ollama provider fails with an empty-response error. -/
theorem hosted_empty_success_local_empty_error (cfg1 cfg2 : Config)
    (word lvl1 lvl2 p1 p2 c s : String) (hr : Nat → HostedResp)
    (onet : OllamaNet) (m : Nat)
    (hprov1 : cfg1.provider ≠ "ollama") (hkey : cfg1.apiKey ≠ "")
    (hmodel1 : cfg1.aiModel ≠ "")
    (hrender1 : renderTemplate cfg1.promptTemplate word lvl1 = .ok p1)
    (hfirst : hr 0 = .okBody c) (hc : pyStrip c = "")
    (hprov2 : cfg2.provider = "ollama") (hmodel2 : cfg2.ollamaModel ≠ "")
    (hrender2 : renderTemplate cfg2.promptTemplate word lvl2 = .ok p2)
    (hsempty : pyStrip s = "") :
    (generate_sentence_for_word cfg1 ⟨lvl1, hr, onet⟩ word m).outcome =
      .success "" ∧
    (generate_sentence_for_word cfg2
        ⟨lvl2, hr, .body (.obj [("message", .obj [("content", .str s)])])⟩
        word m).outcome = .skipped .emptyResponse := by
  constructor
  · have : generate_sentence_for_word cfg1 ⟨lvl1, hr, onet⟩ word m =
        ⟨.success (pyStrip c), [p1], []⟩ := by
      simp only [generate_sentence_for_word, hrender1]
      rw [if_neg hprov1, if_neg hkey, if_neg hmodel1]
      exact hostedGo_ok_step hr p1 m 0 c hfirst
    rw [this, hc]
  · simp [generate_sentence_for_word, hrender2, hprov2, hmodel2, ollamaContent,
      topContent, List.lookup, hsempty]

/-- Witness for C8: hosted content `"  "` comes back as success `""`;
Ollama content `"  "` fails with an empty-response error. -/
theorem hosted_empty_success_local_empty_error_witness :
    (generate_sentence_for_word cfgHosted
        ⟨"A1", fun _ => .okBody "  ", .transportErr⟩ "w" 5).outcome =
      .success "" ∧
    (generate_sentence_for_word cfgOllama
        ⟨"A1", fun _ => .okBody "  ", .body (.obj [("message", .obj [("content", .str "  ")])])⟩
        "w" 5).outcome = .skipped .emptyResponse :=
  hosted_empty_success_local_empty_error cfgHosted cfgOllama "w" "A1" "A1"
    "w" "w" "  " "  " (fun _ => .okBody "  ") .transportErr 5
    (by decide) (by decide) (by decide) rfl rfl (by decide) rfl (by decide)
    rfl (by decide)

/-- One transport-error step of the hosted loop: fatal on the last
attempt, otherwise a 3-second backoff and a retry. -/
theorem hostedGo_transport_step (resp : Nat → HostedResp) (prompt : String)
    (b idx : Nat) (h : resp idx = .transport) :
    hostedGo resp prompt (b + 1) idx =
      if b = 0 then ⟨.raised .transportFatal, [prompt], []⟩
      else prependSend prompt transportSleepSeconds
        (hostedGo resp prompt b (idx + 1)) := by
  rw [hostedGo]
  simp only [h]

/-- Under an all-transport-error backend the loop spends its whole budget:
one request per budget unit, a 3-second backoff between consecutive ones,
then re-raises fatally. -/
theorem hostedGo_allTransport (resp : Nat → HostedResp) (prompt : String) :
    ∀ b idx, 1 ≤ b → (∀ n, idx ≤ n → resp n = .transport) →
      hostedGo resp prompt b idx =
        ⟨.raised .transportFatal, List.replicate b prompt,
          List.replicate (b - 1) transportSleepSeconds⟩ := by
  intro b
  induction b with
  | zero => intro idx h; omega
  | succ b ih =>
    intro idx _ hall
    rw [hostedGo_transport_step resp prompt b idx (hall idx (Nat.le_refl idx))]
    cases b with
    | zero => simp
    | succ b' =>
      rw [if_neg (by omega)]
      rw [ih (idx + 1) (by omega) (fun n hn => hall n (by omega))]
      simp [prependSend, List.replicate_succ]

/-- A run whose first `j` responses are 429 spends `j` budget units on
rate-limit waits and continues with the remaining budget: the shared
counter leaves only `b - j` attempts for whatever follows. -/
theorem hostedGo_429_segment (resp : Nat → HostedResp) (prompt : String) :
    ∀ j b idx, j ≤ b → (∀ n, idx ≤ n → n < idx + j → resp n = .rate429) →
      hostedGo resp prompt b idx =
        ⟨(hostedGo resp prompt (b - j) (idx + j)).outcome,
          List.replicate j prompt ++ (hostedGo resp prompt (b - j) (idx + j)).sent,
          List.replicate j rateWaitSeconds ++
            (hostedGo resp prompt (b - j) (idx + j)).waitLog⟩ := by
  intro j
  induction j with
  | zero => intro b idx _ _; simp
  | succ j ih =>
    intro b idx hj h429
    cases b with
    | zero => omega
    | succ b2 =>
      rw [hostedGo_429_step resp prompt b2 idx (h429 idx (Nat.le_refl idx) (by omega))]
      rw [ih b2 (idx + 1) (by omega) (fun n hn hn2 => h429 n (by omega) (by omega))]
      have e1 : idx + 1 + j = idx + (j + 1) := by omega
      have e2 : b2 - j = b2 + 1 - (j + 1) := by omega
      rw [e1, e2]
      simp [prependSend, List.replicate_succ]

/-- C5 (amended): rate-limited responses and other transport/HTTP errors
share the *same* retry counter, jointly bounded by `maxRetries`: after `j`
429s only `maxRetries - j` transport retries remain.  In a run of `j` 429s
(each with a 30-second wait) followed by transport errors (each retried
after a constant 3-second backoff, a different constant than the
rate-limit wait), the call issues `maxRetries + 1` requests in total and
re-raises the transport error as fatal. -/
theorem shared_retry_counter (cfg : Config) (env : GenEnv)
    (word prompt : String) (m j : Nat)
    (hprov : cfg.provider ≠ "ollama") (hkey : cfg.apiKey ≠ "")
    (hmodel : cfg.aiModel ≠ "")
    (hrender : renderTemplate cfg.promptTemplate word env.level = .ok prompt)
    (hj : j ≤ m)
    (h429 : ∀ n, n < j → env.hostedResp n = .rate429)
    (htr : ∀ n, j ≤ n → env.hostedResp n = .transport) :
    generate_sentence_for_word cfg env word m =
      ⟨.raised .transportFatal, List.replicate (m + 1) prompt,
        List.replicate j rateWaitSeconds ++
          List.replicate (m - j) transportSleepSeconds⟩ ∧
    transportSleepSeconds ≠ rateWaitSeconds := by
  constructor
  · simp only [generate_sentence_for_word, hrender]
    rw [if_neg hprov, if_neg hkey, if_neg hmodel]
    show hostedGo env.hostedResp prompt (m + 1) 0 = _
    rw [hostedGo_429_segment env.hostedResp prompt j (m + 1) 0 (by omega)
      (fun n _ hn2 => h429 n (by omega))]
    rw [hostedGo_allTransport env.hostedResp prompt (m + 1 - j) (0 + j)
      (by omega) (fun n hn => htr n (by omega))]
    have e1 : m + 1 - j - 1 = m - j := by omega
    rw [e1]
    have e2 : m + 1 = j + (m + 1 - j) := by omega
    conv_rhs => rw [e2, List.replicate_add]
  · decide

/-- Response sequence refuting the separate-counter reading of the spec:
one 429, one transport error, then success. -/
def cex5resp : Nat → HostedResp :=
  fun n => if n = 0 then .rate429 else if n = 1 then .transport else .okBody "s"

/-- Counterexample to C5 as stated: with `maxRetries = 1`, after one 429
the code's shared counter is already at its bound, so the single transport
error that follows is re-raised as fatal — whereas the spec's
separate-counter loop (`hostedSpecTwoCounters`) still has its full
transport budget and goes on to succeed on the third request. -/
theorem separate_counters_cex :
    (generate_sentence_for_word cfgHosted ⟨"A1", cex5resp, .transportErr⟩
        "w" 1).outcome = .raised .transportFatal ∧
    (hostedSpecTwoCounters cex5resp "w" 1 0 0 0).outcome =
      .success (pyStrip "s") := by
  constructor
  · decide
  · rw [hostedSpecTwoCounters]
    simp only [cex5resp]
    norm_num
    rw [hostedSpecTwoCounters]
    norm_num
    rw [hostedSpecTwoCounters]
    norm_num
    simp [cex5resp, prependSend]

/-- Witness for the amended C5 at `maxRetries = 2`, one 429 then
transports. -/
theorem shared_retry_counter_witness :
    generate_sentence_for_word cfgHosted
        ⟨"A1", fun n => if n = 0 then .rate429 else .transport, .transportErr⟩
        "w" 2 =
      ⟨.raised .transportFatal, List.replicate (2 + 1) "w",
        List.replicate 1 rateWaitSeconds ++
          List.replicate (2 - 1) transportSleepSeconds⟩ ∧
    transportSleepSeconds ≠ rateWaitSeconds :=
  shared_retry_counter cfgHosted
    ⟨"A1", fun n => if n = 0 then .rate429 else .transport, .transportErr⟩
    "w" "w" 2 1 (by decide) (by decide) (by decide) rfl (by omega)
    (fun n hn => by
      have h0 : n = 0 := by omega
      subst h0
      rfl)
    (fun n hn => by simp [Nat.pos_iff_ne_zero.mp hn])

/-- Batch environment whose hosted backend always answers 429. -/
def benvHosted429 : BatchEnv :=
  ⟨fun _ => ⟨"A1", fun _ => .rate429, .transportErr⟩, fun _ => zseed, fun _ => zseed⟩

/-- Batch environment whose hosted backend answers 2xx with a malformed
body, so extraction raises. -/
def benvBadBody : BatchEnv :=
  ⟨fun _ => ⟨"A1", fun _ => .badBody, .transportErr⟩, fun _ => zseed, fun _ => zseed⟩

/-- A hosted configuration with the API key left empty. -/
def cfgNoKey : Config := ⟨"openai", "", "gpt", "", [TPiece.wordHole]⟩

/-- Counterexample to C6 as stated: rate-limit exhaustion
(`RetriesExhausted`) does *not* abort the batch.  With an always-429
backend the first item's generation returns `None` (retries exhausted),
the batch loop's `if sentence is None: continue` skips it, and the second
item is still processed: the run invokes generation for both words and
terminates as completed, not aborted. -/
theorem retries_exhausted_skips_cex :
    (generate_sentence_for_word cfgHosted ⟨"A1", fun _ => .rate429, .transportErr⟩
        "a" 5).outcome = .skipped .retriesExhausted ∧
    generate_mcq_for_cards store4 cfgHosted benvHosted429 [⟨"a", 0⟩, ⟨"b", 0⟩] =
      ⟨[], ["a", "b"], .completed⟩ := by
  constructor
  · decide
  · decide

/-- C6 (amended): on an item whose word is non-empty and whose distractor
draw succeeds, a *raised* generation failure (transport retries exhausted,
or an unexpected processing exception) aborts the whole batch at once — no
record is emitted and no later item is touched — while a `None` return
(invalid template, empty response, configuration missing, and also
rate-limit retries exhausted) skips only that item and the batch
continues; a returned sentence appends a record and continues. -/
theorem fatal_aborts_recoverable_skips (cfg : Config) (benv : BatchEnv)
    (deckWords : List String) (c : Card) (rest : List Card) (i : Nat)
    (ds : List String) (hw : pyStrip c.word ≠ "")
    (hds : randomSample (benv.sseed i) 3
      (deckWords.filter (fun w => w ≠ pyStrip c.word)) = some ds) :
    batchLoop cfg benv deckWords (c :: rest) i =
      match (generate_sentence_for_word cfg (benv.genEnv i) (pyStrip c.word) 5).outcome with
      | .raised _ => ⟨[], [pyStrip c.word], .aborted⟩
      | .skipped _ =>
        ⟨(batchLoop cfg benv deckWords rest (i + 1)).records,
          pyStrip c.word :: (batchLoop cfg benv deckWords rest (i + 1)).genCalls,
          (batchLoop cfg benv deckWords rest (i + 1)).outcome⟩
      | .success sentence =>
        ⟨⟨pyStrip c.word, sentence,
            randomShuffle (benv.shseed i) (pyStrip c.word :: ds),
            pyStrip c.word⟩ ::
            (batchLoop cfg benv deckWords rest (i + 1)).records,
          pyStrip c.word :: (batchLoop cfg benv deckWords rest (i + 1)).genCalls,
          (batchLoop cfg benv deckWords rest (i + 1)).outcome⟩ := by
  simp only [batchLoop, hds]
  rw [if_neg hw]

/-- Witness for the amended C6: a malformed-body backend raises on the
first item, and the batch aborts with no record and no second item. -/
theorem fatal_aborts_recoverable_skips_witness :
    batchLoop cfgHosted benvBadBody ["a", "b", "c", "d"]
        [⟨"a", 0⟩, ⟨"b", 0⟩] 0 =
      match (generate_sentence_for_word cfgHosted (benvBadBody.genEnv 0)
          (pyStrip (Card.mk "a" 0).word) 5).outcome with
      | .raised _ => ⟨[], [pyStrip (Card.mk "a" 0).word], .aborted⟩
      | .skipped _ =>
        ⟨(batchLoop cfgHosted benvBadBody ["a", "b", "c", "d"] [⟨"b", 0⟩] 1).records,
          pyStrip (Card.mk "a" 0).word ::
            (batchLoop cfgHosted benvBadBody ["a", "b", "c", "d"] [⟨"b", 0⟩] 1).genCalls,
          (batchLoop cfgHosted benvBadBody ["a", "b", "c", "d"] [⟨"b", 0⟩] 1).outcome⟩
      | .success sentence =>
        ⟨⟨pyStrip (Card.mk "a" 0).word, sentence,
            randomShuffle (benvBadBody.shseed 0)
              (pyStrip (Card.mk "a" 0).word :: ["b", "c", "d"]),
            pyStrip (Card.mk "a" 0).word⟩ ::
            (batchLoop cfgHosted benvBadBody ["a", "b", "c", "d"] [⟨"b", 0⟩] 1).records,
          pyStrip (Card.mk "a" 0).word ::
            (batchLoop cfgHosted benvBadBody ["a", "b", "c", "d"] [⟨"b", 0⟩] 1).genCalls,
          (batchLoop cfgHosted benvBadBody ["a", "b", "c", "d"] [⟨"b", 0⟩] 1).outcome⟩ :=
  fatal_aborts_recoverable_skips cfgHosted benvBadBody ["a", "b", "c", "d"]
    ⟨"a", 0⟩ [⟨"b", 0⟩] 0 ["b", "c", "d"] (by decide) (by decide)

/-- Counterexample to C9 as stated: with the hosted provider and an empty
API key, the configuration failure does not abort the batch.  Generation
returns `None` immediately (no request is issued), the item is skipped,
and the next item is still attempted: both words are passed to the
generator and the run completes. -/
theorem config_missing_continues_cex :
    generate_sentence_for_word cfgNoKey ⟨"A1", fun _ => .rate429, .transportErr⟩
        "a" 5 = ⟨.skipped .apiKeyMissing, [], []⟩ ∧
    generate_mcq_for_cards store4 cfgNoKey benvHosted429 [⟨"a", 0⟩, ⟨"b", 0⟩] =
      ⟨[], ["a", "b"], .completed⟩ := by
  constructor
  · decide
  · decide

/-- C9 (amended): with the hosted provider active and the API key or model
name empty, every generation call fails fast with a configuration-missing
`None` before issuing any network request; the batch does not abort — each
item is visited in turn, skipped, and the run completes with no records. -/
theorem config_missing_skips_item (cfg : Config) (benv : BatchEnv)
    (deckWords : List String)
    (hprov : cfg.provider ≠ "ollama")
    (hmiss : cfg.apiKey = "" ∨ cfg.aiModel = "")
    (hrender : ∀ i w, ∃ p,
      renderTemplate cfg.promptTemplate w ((benv.genEnv i).level) = .ok p)
    (hnd : deckWords.Nodup) (hlen : 4 ≤ deckWords.length) :
    (∀ (env : GenEnv) (w prompt : String) (m : Nat),
      renderTemplate cfg.promptTemplate w env.level = .ok prompt →
      ((generate_sentence_for_word cfg env w m).outcome = .skipped .apiKeyMissing ∨
        (generate_sentence_for_word cfg env w m).outcome = .skipped .modelMissing) ∧
      (generate_sentence_for_word cfg env w m).sent = []) ∧
    (∀ (cards : List Card) (i : Nat),
      batchLoop cfg benv deckWords cards i =
        ⟨[], (cards.map (fun c => pyStrip c.word)).filter (fun w => w ≠ ""),
          .completed⟩) := by
  have hcall : ∀ (env : GenEnv) (w prompt : String) (m : Nat),
      renderTemplate cfg.promptTemplate w env.level = .ok prompt →
      ((generate_sentence_for_word cfg env w m).outcome = .skipped .apiKeyMissing ∨
        (generate_sentence_for_word cfg env w m).outcome = .skipped .modelMissing) ∧
      (generate_sentence_for_word cfg env w m).sent = [] := by
    intro env w prompt m hr
    simp only [generate_sentence_for_word, hr]
    rw [if_neg hprov]
    by_cases hk : cfg.apiKey = ""
    · rw [if_pos hk]
      exact ⟨Or.inl rfl, rfl⟩
    · have hmodel : cfg.aiModel = "" := by
        rcases hmiss with h | h
        · exact absurd h hk
        · exact h
      rw [if_neg hk, if_pos hmodel]
      exact ⟨Or.inr rfl, rfl⟩
  refine ⟨hcall, ?_⟩
  intro cards
  induction cards with
  | nil => intro i; simp [batchLoop]
  | cons c rest ih =>
    intro i
    by_cases hw : pyStrip c.word = ""
    · simp only [batchLoop]
      rw [if_pos hw, ih (i + 1)]
      simp [hw]
    · have hcand : 3 ≤ (deckWords.filter (fun w => w ≠ pyStrip c.word)).length := by
        have := filter_ne_length_of_nodup hnd (pyStrip c.word)
        omega
      obtain ⟨ds, hds⟩ :=
        randomSample_isSome 3 (benv.sseed i)
          (deckWords.filter (fun w => w ≠ pyStrip c.word)) hcand
      obtain ⟨p, hp⟩ := hrender i (pyStrip c.word)
      obtain ⟨houtcome, -⟩ := hcall (benv.genEnv i) (pyStrip c.word) p 5 hp
      simp only [batchLoop, hds]
      rw [if_neg hw]
      rcases houtcome with h | h
      · rw [h, ih (i + 1)]
        simp [hw]
      · rw [h, ih (i + 1)]
        simp [hw]

/-- Witness for the amended C9: empty API key, four-word pool; applies the
theorem at a concrete batch of two items and extracts the batch half. -/
theorem config_missing_skips_item_witness :
    batchLoop cfgNoKey benvHosted429 ["a", "b", "c", "d"]
        [⟨"a", 0⟩, ⟨"b", 0⟩] 0 =
      ⟨[], ((([⟨"a", 0⟩, ⟨"b", 0⟩] : List Card).map
        (fun c => pyStrip c.word)).filter (fun w => w ≠ "")), .completed⟩ :=
  (config_missing_skips_item cfgNoKey benvHosted429 ["a", "b", "c", "d"]
    (by decide) (Or.inl rfl) (fun i w => ⟨w ++ "", rfl⟩) (by decide) (by decide)).2
    [⟨"a", 0⟩, ⟨"b", 0⟩] 0

/-- The batch loop reads nothing from a card except its `Word` field: two
card lists with the same words run identically. -/
theorem batchLoop_words_only (cfg : Config) (benv : BatchEnv)
    (deckWords : List String) :
    ∀ (cards cards' : List Card), cards.map Card.word = cards'.map Card.word →
      ∀ i, batchLoop cfg benv deckWords cards i =
        batchLoop cfg benv deckWords cards' i := by
  intro cards
  induction cards with
  | nil =>
    intro cards' h i
    cases cards' with
    | nil => rfl
    | cons c' rest' => simp at h
  | cons c rest ih =>
    intro cards' h i
    cases cards' with
    | nil => simp at h
    | cons c' rest' =>
      simp only [List.map_cons, List.cons.injEq] at h
      obtain ⟨hcw, hrest⟩ := h
      simp only [batchLoop]
      rw [hcw, ih rest' hrest (i + 1)]

/-- A store differing from another only outside one deck. -/
def store4b : Nat → List String :=
  fun d => if d = 0 then ["a", "b", "c", "d"] else ["x", "y", "z", "v"]

/-- C10: the distractor pool is computed once per batch from the deck of
the *first* card — deduplicated, with empty words removed — and reused
unchanged for every item: (i) the pool has no duplicates; (ii) it holds
exactly the non-empty stripped `Word` fields of that deck; (iii) the run
depends on the store only through the first card's deck; (iv) the deck
ids of the other cards are never consulted; (v) every option of every
emitted record is the item's word or a member of that one pool. -/
theorem deck_pool_once_from_first_deck (store s2 : Nat → List String)
    (cfg : Config) (benv : BatchEnv) (first : Card) (rest : List Card)
    (f : Nat → Nat) :
    (get_all_deck_words store first.did).Nodup ∧
    (∀ w, w ∈ get_all_deck_words store first.did ↔
      (w ≠ "" ∧ ∃ raw ∈ store first.did, pyStrip raw = w)) ∧
    (store first.did = s2 first.did →
      generate_mcq_for_cards store cfg benv (first :: rest) =
        generate_mcq_for_cards s2 cfg benv (first :: rest)) ∧
    (generate_mcq_for_cards store cfg benv (first :: rest) =
      generate_mcq_for_cards store cfg benv
        (first :: rest.map (fun c => ⟨c.word, f c.did⟩))) ∧
    (∀ rec ∈ (generate_mcq_for_cards store cfg benv (first :: rest)).records,
      ∀ x ∈ rec.options, x = rec.word ∨ x ∈ get_all_deck_words store first.did) := by
  refine ⟨List.nodup_dedup _, ?_, ?_, ?_, ?_⟩
  · intro w
    simp only [get_all_deck_words, List.mem_dedup, List.mem_filter,
      List.mem_map, ne_eq, decide_eq_true_eq]
    constructor
    · rintro ⟨⟨raw, hraw, hstrip⟩, hne⟩
      exact ⟨hne, raw, hraw, hstrip⟩
    · rintro ⟨hne, raw, hraw, hstrip⟩
      exact ⟨⟨raw, hraw, hstrip⟩, hne⟩
  · intro h
    simp only [generate_mcq_for_cards, get_all_deck_words, h]
  · have hwords : (first :: rest).map Card.word =
        (first :: rest.map (fun c => ⟨c.word, f c.did⟩)).map Card.word := by
      simp [List.map_map]
    by_cases hc : (get_all_deck_words store first.did).length < 4
    · simp only [generate_mcq_for_cards]
      rw [if_pos hc, if_pos hc]
    · simp only [generate_mcq_for_cards]
      rw [if_neg hc, if_neg hc,
        batchLoop_words_only cfg benv (get_all_deck_words store first.did)
          _ _ hwords 0]
  · intro rec hrec x hx
    simp only [generate_mcq_for_cards] at hrec
    split at hrec
    · simp at hrec
    · have hnd : (get_all_deck_words store first.did).Nodup := List.nodup_dedup _
      obtain ⟨-, -, -, -, hsub⟩ :=
        batchLoop_records_wf cfg benv _ hnd _ _ rec hrec
      exact hsub x hx

/-- Witness for C10: a second store that differs on every deck except the
first card's deck 0 produces the identical run, even though the second
card lives in deck 1. -/
theorem deck_pool_once_from_first_deck_witness :
    generate_mcq_for_cards store4 cfgOllama benvOllama [⟨"a", 0⟩, ⟨"b", 1⟩] =
      generate_mcq_for_cards store4b cfgOllama benvOllama [⟨"a", 0⟩, ⟨"b", 1⟩] :=
  (deck_pool_once_from_first_deck store4 store4b cfgOllama benvOllama
    ⟨"a", 0⟩ [⟨"b", 1⟩] (fun d => d)).2.2.1 (by decide)

end MCQGen
